import Mathlib

/-!
Shallow embedding of the ranked hot-search store implemented in
`server/core/services/hotSearchSQLite.ts` (class `HotSearchSQLiteService`).

The service keeps one record per search term (`HotSearchItem`: term, score,
lastSearched, createdAt) and runs against one of two backends chosen at
construction time:

* the durable backend, a SQLite table `hot_searches` driven by prepared
  statements (upsert with `ON CONFLICT`, ranked `SELECT ... ORDER BY score
  DESC, last_searched DESC LIMIT ?`, and a capacity cleanup
  `DELETE ... WHERE id NOT IN (SELECT id ... LIMIT 50)`);
* the in-memory fallback installed by `initMemoryFallback`, which emulates
  `prepare` by string-matching the SQL text and operating on a
  `Map<string, HotSearchItem>`.

Both stores are modelled as a `List HotSearchItem` in insertion order: SQLite
rows in rowid order (inserts append, updates keep the row in place) and the
JavaScript `Map` in key-insertion order (set on an existing key keeps its
position) have the same order structure.  A notable behavioural point kept by
the embedding: in the fallback, the cleanup SQL contains both `SELECT` and
`FROM hot_searches` (inside its subquery), so `prepare` dispatches it to the
query branch whose statement object has only `all`; the subsequent `.run(50)`
throws, `cleanupOldEntries` catches and ignores the error, and therefore the
memory fallback never evicts anything.
-/

/-- Stored record for one search term (interface `HotSearchItem`): the term,
its hit count `score`, the timestamp of the most recent hit `lastSearched`
(column `last_searched`), and the creation timestamp `createdAt`
(column `created_at`).  Timestamps are `Date.now()` values, modelled as `Nat`. -/
structure HotSearchItem where
  term : String
  score : Nat
  lastSearched : Nat
  createdAt : Nat
deriving Repr, DecidableEq

/-- Capacity bound `MAX_ENTRIES = 50` of `HotSearchSQLiteService`. -/
def MAX_ENTRIES : Nat := 50

/-- Whitespace characters as recognised by JavaScript `String.prototype.trim`
(the ASCII ones, which cover every term the development evaluates). -/
def isWsChar (c : Char) : Bool :=
  c == ' ' || c == '\t' || c == '\n' || c == '\r' || c == '\u000b' || c == '\u000c'

/-- Guard `!term || term.trim().length === 0` at the top of `recordSearch`:
the term is empty or consists only of whitespace. -/
def isBlank (term : String) : Bool := term.data.all isWsChar

/-- ASCII lower-casing of one character, the effect of the `i` flag of the
moderation regexes on their ASCII keywords (the Chinese keywords have no
case and are left untouched). -/
def toLowerChar (c : Char) : Char :=
  if 'A' ≤ c ∧ c ≤ 'Z' then Char.ofNat (c.toNat + 32) else c

/-- Case-normalised character sequence of a term. -/
def lowerStr (s : String) : List Char := s.data.map toLowerChar

/-- Unanchored substring test: `needle` occurs somewhere in `hay`.  This is
what `RegExp.test` computes for a pattern that is a plain literal keyword. -/
def containsSub (needle : String) (hay : List Char) : Bool :=
  decide (needle.data <:+: hay)

/-- The two alternation patterns of `isForbidden`:
`/政治|暴力|色情|赌博|毒品/i` and `/fuck|shit|bitch/i`,
each a list of literal keyword alternatives. -/
def forbiddenPatterns : List (List String) :=
  [["政治", "暴力", "色情", "赌博", "毒品"], ["fuck", "shit", "bitch"]]

/-- Evaluation of `pattern.test(term)` for one `i`-flagged alternation of
literal keywords: some alternative occurs in the case-normalised term. -/
def patternTest (alts : List String) (term : String) : Bool :=
  alts.any fun kw => containsSub kw (lowerStr term)

/-- Method `isForbidden`: `forbiddenPatterns.some(pattern => pattern.test(term))`. -/
def isForbidden (term : String) : Bool :=
  forbiddenPatterns.any fun p => patternTest p term

/-- The upsert performed by `recordSearch` after its guards, identical in both
backends.  Durable: `INSERT INTO hot_searches (term, score, last_searched,
created_at) VALUES (?, 1, ?, ?) ON CONFLICT(term) DO UPDATE SET score = score
+ 1, last_searched = ?`, run as `stmt.run(term, now, now, now)`.  Fallback:
the `INSERT INTO` branch of the emulated `prepare`, which increments
`score` and refreshes `lastSearched` of an existing entry and otherwise
inserts a fresh record with score 1 and both timestamps `now`.  All timestamp
arguments at the single call site are the same `now`, so one parameter
suffices. -/
def upsert (term : String) (now : Nat) (store : List HotSearchItem) : List HotSearchItem :=
  if store.any fun it => it.term == term then
    store.map fun it =>
      if it.term == term then
        { it with score := it.score + 1, lastSearched := now }
      else it
  else
    store ++ [{ term := term, score := 1, lastSearched := now, createdAt := now }]

/-- Ranking order used everywhere: record `a` may be placed before record `b`.
Durable backend: `ORDER BY score DESC, last_searched DESC`.  Fallback:
comparator `(a, b) => b.score !== a.score ? b.score - a.score :
b.lastSearched - a.lastSearched`. -/
def RankBefore (a b : HotSearchItem) : Prop :=
  b.score < a.score ∨ (a.score = b.score ∧ b.lastSearched ≤ a.lastSearched)

instance : DecidableRel RankBefore := fun a b => by
  unfold RankBefore
  exact inferInstance

instance : IsTotal HotSearchItem RankBefore := by
  constructor
  intro a b
  unfold RankBefore
  omega

instance : IsTrans HotSearchItem RankBefore := by
  constructor
  intro a b c
  unfold RankBefore
  omega

/-- Stable sort of the store by the ranking order.  JavaScript `Array.sort`
is required to be stable, and the SQL `ORDER BY` is modelled the same way
over rowid order, so one stable sort serves both backends. -/
def rankedSort (store : List HotSearchItem) : List HotSearchItem :=
  store.insertionSort RankBefore

/-- Durable-backend `cleanupOldEntries`: `DELETE FROM hot_searches WHERE id
NOT IN (SELECT id FROM hot_searches ORDER BY score DESC, last_searched DESC
LIMIT ?)` run with `MAX_ENTRIES`, i.e. keep exactly the rows ranked in the
top `MAX_ENTRIES`, in their original row order. -/
def cleanupOldEntries (store : List HotSearchItem) : List HotSearchItem :=
  store.filter fun x => decide (x ∈ (rankedSort store).take MAX_ENTRIES)

/-- Method `recordSearch` against the durable backend: return unchanged on a
blank term, return unchanged on a forbidden term, otherwise upsert and run
the capacity cleanup. -/
def recordSearchDurable (term : String) (now : Nat) (store : List HotSearchItem) :
    List HotSearchItem :=
  if isBlank term then store
  else if isForbidden term then store
  else cleanupOldEntries (upsert term now store)

/-- Method `recordSearch` against the memory fallback.  The guards and the
upsert behave as in the durable case, but the cleanup is a no-op: the cleanup
SQL contains `SELECT` and `FROM hot_searches`, so the emulated `prepare`
returns the query-branch object, which has no `run`; the resulting error is
caught and swallowed inside `cleanupOldEntries`, and no eviction happens. -/
def recordSearchMemory (term : String) (now : Nat) (store : List HotSearchItem) :
    List HotSearchItem :=
  if isBlank term then store
  else if isForbidden term then store
  else upsert term now store

/-- SQLite `LIMIT ?` semantics: a negative bound means "no limit". -/
def sqliteLimit (l : List HotSearchItem) (lim : Int) : List HotSearchItem :=
  if lim < 0 then l else l.take lim.toNat

/-- JavaScript `Array.prototype.slice(0, end)`: a negative `end` counts from
the end of the array (`max(length + end, 0)` elements are kept), a
non-negative `end` keeps at most `end` elements. -/
def jsSliceTo (l : List HotSearchItem) (e : Int) : List HotSearchItem :=
  if e < 0 then l.take ((l.length : Int) + e).toNat else l.take e.toNat

/-- Method `getHotSearches(limit)` against the durable backend: ranked
`SELECT` with `LIMIT Math.min(limit, MAX_ENTRIES)`; the row-to-object mapping
is the identity on the modelled fields. -/
def getHotSearchesDurable (lim : Int) (store : List HotSearchItem) : List HotSearchItem :=
  sqliteLimit (rankedSort store) (min lim (MAX_ENTRIES : Int))

/-- Method `getHotSearches(limit)` against the memory fallback: the query
branch sorts the map values with the ranking comparator and applies
`.slice(0, Math.min(limit, MAX_ENTRIES))`. -/
def getHotSearchesMemory (lim : Int) (store : List HotSearchItem) : List HotSearchItem :=
  jsSliceTo (rankedSort store) (min lim (MAX_ENTRIES : Int))

/-- Structured result of the two admin operations. -/
structure AdminResult where
  success : Bool
  message : String
deriving Repr, DecidableEq

/-- Method `clearHotSearches(password)`: compare against the configured
password (`process.env.HOT_SEARCH_PASSWORD || 'admin123'`, abstracted as the
`correctPassword` argument); on mismatch return a failure without touching
the store, on match run `DELETE FROM hot_searches` (both backends empty the
store).  Returns the result together with the new store. -/
def clearHotSearches (password correctPassword : String) (store : List HotSearchItem) :
    AdminResult × List HotSearchItem :=
  if password ≠ correctPassword then
    ({ success := false, message := "密码错误" }, store)
  else
    ({ success := true, message := "热搜记录已清除" }, [])

/-- Method `deleteHotSearch(term, password)`: on password mismatch return a
failure without touching the store; otherwise run `DELETE FROM hot_searches
WHERE term = ?` (fallback: `memoryStore.delete(term)`) and report success
exactly when a row was removed. -/
def deleteHotSearch (term password correctPassword : String) (store : List HotSearchItem) :
    AdminResult × List HotSearchItem :=
  if password ≠ correctPassword then
    ({ success := false, message := "密码错误" }, store)
  else
    let remaining := store.filter fun it => !(it.term == term)
    if remaining.length < store.length then
      ({ success := true, message := "热搜词 \"" ++ term ++ "\" 已删除" }, remaining)
    else
      ({ success := false, message := "热搜词不存在" }, store)

/-- Method `getDatabaseSize()`: if the database file exists, return
`Math.round(stats.size / (1024 * 1024) * 100) / 100` (its size converted to
megabytes, rounded to two decimals), otherwise 0.  The filesystem is
abstracted into whether the file exists and its size in bytes; `Math.round`
rounds half towards positive infinity, as `round` does. -/
def getDatabaseSize (dbFileExists : Bool) (sizeBytes : Nat) : ℚ :=
  if dbFileExists then (round ((sizeBytes : ℚ) / (1024 * 1024) * 100) : ℚ) / 100 else 0

/-- Replay of a sequence of `recordSearch(term)` calls at given timestamps
against a durable-backend instance starting from an empty store. -/
def runDurable (calls : List (String × Nat)) : List HotSearchItem :=
  calls.foldl (fun s c => recordSearchDurable c.1 c.2 s) []

/-- Replay of a sequence of `recordSearch(term)` calls at given timestamps
against a memory-fallback instance starting from an empty store. -/
def runMemory (calls : List (String × Nat)) : List HotSearchItem :=
  calls.foldl (fun s c => recordSearchMemory c.1 c.2 s) []

example : isBlank "   " = true := by decide

example : isForbidden "aFUCKb" = true := by decide

example : recordSearchDurable "abc" 5 [] = [⟨"abc", 1, 5, 5⟩] := by decide

example :
    runDurable [("a", 0), ("b", 1), ("a", 2)] =
      [⟨"a", 2, 2, 0⟩, ⟨"b", 1, 1, 1⟩] := by decide

example :
    getHotSearchesDurable 2 [⟨"a", 1, 0, 0⟩, ⟨"b", 1, 1, 1⟩] =
      [⟨"b", 1, 1, 1⟩, ⟨"a", 1, 0, 0⟩] := by decide

lemma mem_rankedSort {x : HotSearchItem} {s : List HotSearchItem} :
    x ∈ rankedSort s ↔ x ∈ s :=
  (List.perm_insertionSort RankBefore s).mem_iff

lemma length_rankedSort (s : List HotSearchItem) :
    (rankedSort s).length = s.length :=
  (List.perm_insertionSort RankBefore s).length_eq

lemma pairwise_rankedSort (s : List HotSearchItem) :
    List.Pairwise RankBefore (rankedSort s) :=
  List.sorted_insertionSort RankBefore s

lemma cleanupOldEntries_of_le {s : List HotSearchItem} (h : s.length ≤ MAX_ENTRIES) :
    cleanupOldEntries s = s := by
  unfold cleanupOldEntries
  rw [List.take_of_length_le (by rw [length_rankedSort]; exact h)]
  rw [List.filter_eq_self]
  intro a ha
  simp [mem_rankedSort, ha]

lemma recordSearchDurable_single (t : String) (h1 : isBlank t = false)
    (h2 : isForbidden t = false) (n k last c : Nat) :
    recordSearchDurable t n [⟨t, k, last, c⟩] = [⟨t, k + 1, n, c⟩] := by
  unfold recordSearchDurable
  rw [h1, h2]
  simp only [Bool.false_eq_true, if_false]
  rw [show upsert t n [⟨t, k, last, c⟩] = [⟨t, k + 1, n, c⟩] by
    unfold upsert; simp]
  exact cleanupOldEntries_of_le (by simp [MAX_ENTRIES])

lemma recordSearchMemory_single (t : String) (h1 : isBlank t = false)
    (h2 : isForbidden t = false) (n k last c : Nat) :
    recordSearchMemory t n [⟨t, k, last, c⟩] = [⟨t, k + 1, n, c⟩] := by
  unfold recordSearchMemory
  rw [h1, h2]
  simp only [Bool.false_eq_true, if_false]
  unfold upsert; simp

lemma foldl_recordDurable_single (t : String) (h1 : isBlank t = false)
    (h2 : isForbidden t = false) (ns : List Nat) (k last c : Nat) :
    ns.foldl (fun s n => recordSearchDurable t n s) [⟨t, k, last, c⟩] =
      [⟨t, k + ns.length, ns.getLastD last, c⟩] := by
  induction ns generalizing k last with
  | nil => simp
  | cons n ns ih =>
    simp only [List.foldl_cons, recordSearchDurable_single t h1 h2]
    rw [ih]
    simp only [List.length_cons, List.getLastD_cons]
    have hk : k + 1 + ns.length = k + (ns.length + 1) := by omega
    rw [hk]

lemma foldl_recordMemory_single (t : String) (h1 : isBlank t = false)
    (h2 : isForbidden t = false) (ns : List Nat) (k last c : Nat) :
    ns.foldl (fun s n => recordSearchMemory t n s) [⟨t, k, last, c⟩] =
      [⟨t, k + ns.length, ns.getLastD last, c⟩] := by
  induction ns generalizing k last with
  | nil => simp
  | cons n ns ih =>
    simp only [List.foldl_cons, recordSearchMemory_single t h1 h2]
    rw [ih]
    simp only [List.length_cons, List.getLastD_cons]
    have hk : k + 1 + ns.length = k + (ns.length + 1) := by omega
    rw [hk]

lemma recordSearchDurable_first (t : String) (h1 : isBlank t = false)
    (h2 : isForbidden t = false) (n : Nat) :
    recordSearchDurable t n [] = [⟨t, 1, n, n⟩] := by
  unfold recordSearchDurable
  rw [h1, h2]
  simp only [Bool.false_eq_true, if_false]
  rw [show upsert t n [] = [⟨t, 1, n, n⟩] by unfold upsert; simp]
  exact cleanupOldEntries_of_le (by simp [MAX_ENTRIES])

lemma recordSearchMemory_first (t : String) (h1 : isBlank t = false)
    (h2 : isForbidden t = false) (n : Nat) :
    recordSearchMemory t n [] = [⟨t, 1, n, n⟩] := by
  unfold recordSearchMemory
  rw [h1, h2]
  simp only [Bool.false_eq_true, if_false]
  unfold upsert; simp

/-- C3: starting from an empty store, recording a non-blank, non-forbidden term
`t` once per timestamp in `n0 :: ns` (N = ns.length + 1 calls) leaves, in both
backends, exactly one record for `t` whose score is N, whose `createdAt` is
the timestamp of the first call (unchanged thereafter), and whose
`lastSearched` is the timestamp of the last call. -/
theorem C3_repeat_record (t : String) (n0 : Nat) (ns : List Nat)
    (h1 : isBlank t = false) (h2 : isForbidden t = false) :
    runDurable ((n0 :: ns).map fun n => (t, n)) =
        [⟨t, ns.length + 1, ns.getLastD n0, n0⟩] ∧
    runMemory ((n0 :: ns).map fun n => (t, n)) =
        [⟨t, ns.length + 1, ns.getLastD n0, n0⟩] := by
  constructor
  · unfold runDurable
    rw [List.foldl_map]
    simp only [List.foldl_cons, recordSearchDurable_first t h1 h2,
      foldl_recordDurable_single t h1 h2]
    have hk : 1 + ns.length = ns.length + 1 := by omega
    rw [hk]
  · unfold runMemory
    rw [List.foldl_map]
    simp only [List.foldl_cons, recordSearchMemory_first t h1 h2,
      foldl_recordMemory_single t h1 h2]
    have hk : 1 + ns.length = ns.length + 1 := by omega
    rw [hk]

/-- C4: for every store state and every limit, `getHotSearches` returns a
sequence that is pairwise consistent with the ranking order (score
descending, ties broken by more recent `lastSearched` first) in both
backends, and for every non-negative limit the two backends return the
identical sequence on identical data. -/
theorem C4_ranking_order (store : List HotSearchItem) (lim : Int) :
    List.Pairwise RankBefore (getHotSearchesDurable lim store) ∧
    List.Pairwise RankBefore (getHotSearchesMemory lim store) ∧
    (0 ≤ lim → getHotSearchesDurable lim store = getHotSearchesMemory lim store) := by
  have hs : List.Pairwise RankBefore (rankedSort store) := pairwise_rankedSort store
  refine ⟨?_, ?_, ?_⟩
  · unfold getHotSearchesDurable sqliteLimit
    split
    · exact hs
    · exact hs.sublist (List.take_sublist _ _)
  · unfold getHotSearchesMemory jsSliceTo
    split
    · exact hs.sublist (List.take_sublist _ _)
    · exact hs.sublist (List.take_sublist _ _)
  · intro hl
    unfold getHotSearchesDurable getHotSearchesMemory sqliteLimit jsSliceTo
    have hm : ¬ (min lim (MAX_ENTRIES : Int) < 0) := by
      unfold MAX_ENTRIES
      omega
    rw [if_neg hm, if_neg hm]

/-- C5 counterexample: `recordSearch(" a ")` followed by `recordSearch("a")`
creates two distinct records keyed by the raw strings `" a "` and `"a"`,
refuting the claim that the term is trimmed before being used as the unique
key (which would have made both calls touch the same record). -/
theorem C5_counterexample :
    (runDurable [(" a ", 0), ("a", 1)]).map HotSearchItem.term = [" a ", "a"] ∧
    (runDurable [(" a ", 0), ("a", 1)]).length = 2 := by decide

/-- C5 amended: only the emptiness guard inspects the trimmed term;
`recordSearch` stores the record under the raw, untrimmed term string, so a
first record of any valid term `t` (including terms with surrounding
whitespace) creates the record with key exactly `t` in both backends. -/
theorem C5_raw_key (t : String) (now : Nat)
    (h1 : isBlank t = false) (h2 : isForbidden t = false) :
    runDurable [(t, now)] = [⟨t, 1, now, now⟩] ∧
    runMemory [(t, now)] = [⟨t, 1, now, now⟩] := by
  constructor
  · unfold runDurable
    simp only [List.foldl_cons, List.foldl_nil]
    exact recordSearchDurable_first t h1 h2 now
  · unfold runMemory
    simp only [List.foldl_cons, List.foldl_nil]
    exact recordSearchMemory_first t h1 h2 now

/-- C6 counterexample: on a store holding one record, `list(-1)` against the
durable backend returns that record (SQLite treats a negative LIMIT as
unlimited) rather than the empty result the claim requires for negative
limits. -/
theorem C6_counterexample :
    getHotSearchesDurable (-1) [⟨"a", 1, 0, 0⟩] ≠ ([] : List HotSearchItem) := by decide

/-- C6 amended: `getHotSearches` clamps the limit only from above, via
`Math.min(limit, MAX_ENTRIES)`: for every non-negative limit both backends
return at most `min limit MAX_ENTRIES` records, but a negative limit is
passed through unclamped, and the durable backend then returns every stored
record. -/
theorem C6_limit_clamp (store : List HotSearchItem) (lim : Int) :
    (0 ≤ lim →
      (getHotSearchesDurable lim store).length ≤ min lim.toNat MAX_ENTRIES ∧
      (getHotSearchesMemory lim store).length ≤ min lim.toNat MAX_ENTRIES) ∧
    (lim < 0 → getHotSearchesDurable lim store = rankedSort store) := by
  constructor
  · intro h
    unfold getHotSearchesDurable getHotSearchesMemory sqliteLimit jsSliceTo
    have hm : ¬ (min lim (MAX_ENTRIES : Int) < 0) := by
      unfold MAX_ENTRIES
      omega
    rw [if_neg hm, if_neg hm]
    simp only [List.length_take]
    unfold MAX_ENTRIES at *
    constructor <;> omega
  · intro h
    unfold getHotSearchesDurable sqliteLimit
    have hm : min lim (MAX_ENTRIES : Int) < 0 := by
      unfold MAX_ENTRIES
      omega
    rw [if_pos hm]

/-- C7: for every store state, term, and secret different from the configured
administrative password, `deleteHotSearch` and `clearHotSearches` both return
`success := false` with the incorrect-password message and leave the store
completely unchanged. -/
theorem C7_wrong_secret (term pw correct : String) (store : List HotSearchItem)
    (h : pw ≠ correct) :
    deleteHotSearch term pw correct store =
        ({ success := false, message := "密码错误" }, store) ∧
    clearHotSearches pw correct store =
        ({ success := false, message := "密码错误" }, store) := by
  unfold deleteHotSearch clearHotSearches
  rw [if_pos h, if_pos h]
  exact ⟨rfl, rfl⟩

/-- C9: `recordSearch("")` and `recordSearch("   ")` are no-ops in both
backends: the store (size and every record) is returned unchanged. -/
theorem C9_blank_noop (store : List HotSearchItem) (now : Nat) :
    recordSearchDurable "" now store = store ∧
    recordSearchDurable "   " now store = store ∧
    recordSearchMemory "" now store = store ∧
    recordSearchMemory "   " now store = store :=
  ⟨rfl, rfl, rfl, rfl⟩

/-- C10: the moderation filter rejects exactly by case-insensitive substring
containment: `isForbidden` holds iff one of the eight fixed keywords occurs
anywhere in the case-normalised term, and a forbidden term is silently
discarded by `recordSearch` in both backends (the store is unchanged). -/
theorem C10_moderation (t : String) (now : Nat) (s : List HotSearchItem) :
    (isForbidden t = true ↔
      ∃ kw ∈ (["政治", "暴力", "色情", "赌博", "毒品", "fuck", "shit", "bitch"] : List String),
        kw.data <:+: lowerStr t) ∧
    (isForbidden t = true → recordSearchDurable t now s = s ∧ recordSearchMemory t now s = s) := by
  constructor
  · have hflat : isForbidden t =
        (["政治", "暴力", "色情", "赌博", "毒品", "fuck", "shit", "bitch"] : List String).any
          fun kw => containsSub kw (lowerStr t) := by
      simp [isForbidden, forbiddenPatterns, patternTest, Bool.or_assoc]
    rw [hflat]
    simp [containsSub]
  · intro h
    cases hb : isBlank t with
    | true => simp [recordSearchDurable, recordSearchMemory, hb]
    | false => simp [recordSearchDurable, recordSearchMemory, hb, h]

/-- C8 counterexample: for a database file of exactly 1048576 bytes,
`getDatabaseSize` returns 1, not 1048576: the value is in megabytes, refuting
the claim that the size is returned in bytes. -/
theorem C8_counterexample :
    getDatabaseSize true 1048576 = 1 ∧ getDatabaseSize true 1048576 ≠ (1048576 : ℚ) := by
  have h : getDatabaseSize true 1048576 = 1 := by
    unfold getDatabaseSize
    norm_num
  exact ⟨h, by rw [h]; norm_num⟩

/-- C8 amended: `getDatabaseSize` returns 0 when no database file exists
(non-persistent backend), and otherwise the file size converted to megabytes
rounded to two decimals; in particular a file of `n * 1048576` bytes reports
exactly `n`. -/
theorem C8_size_megabytes (n sz : Nat) :
    getDatabaseSize false sz = 0 ∧
    getDatabaseSize true (n * 1048576) = (n : ℚ) := by
  constructor
  · rfl
  · unfold getDatabaseSize
    rw [if_pos rfl]
    have harg : ((n * 1048576 : Nat) : ℚ) / (1024 * 1024) * 100 = ((100 * n : Nat) : ℚ) := by
      push_cast
      ring
    rw [harg, round_natCast]
    push_cast
    field_simp

set_option maxRecDepth 10000

/-- C1: the capacity bound holds for the durable backend but fails for the
memory fallback.  Recording the 51 distinct, valid terms "0".."50" once each
leaves 50 records in the durable store (the cleanup drops the lowest-ranked
record) but 51 records in the memory fallback, whose cleanup statement is
dispatched to the run-less query branch so that no eviction ever happens.
This exhibits the code bug behind the claim that both backends keep at most
`MAX_ENTRIES` records after every `record` call. -/
theorem C1_capacity_divergence :
    (runDurable ((List.range 51).map fun i => (toString i, i))).length = 50 ∧
    (runMemory ((List.range 51).map fun i => (toString i, i))).length = 51 := by decide

/-- C2: the two backends are distinguishable through `list`.  After recording
the terms "0".."50" once each and then "0" a second time, the durable backend
(which evicted "0" at the 51st insert) re-creates it with score 1 and a fresh
`createdAt`, while the memory fallback (which never evicts) increments the
surviving record to score 2 with its original `createdAt`; `list(1)` then
returns different field values, refuting behavioural equivalence of the two
backends under identical `record` sequences. -/
theorem C2_backend_divergence :
    getHotSearchesDurable 1
        (runDurable (((List.range 51).map fun i => (toString i, i)) ++ [("0", 51)])) =
      [⟨"0", 1, 51, 51⟩] ∧
    getHotSearchesMemory 1
        (runMemory (((List.range 51).map fun i => (toString i, i)) ++ [("0", 51)])) =
      [⟨"0", 2, 51, 0⟩] := by decide

/-- Witness for C3 at a concrete input: three records of "abc" at times 1, 2,
3 yield one record with score 3, created at 1, last accessed at 3. -/
theorem C3_repeat_record_witness :
    runDurable ([1, 2, 3].map fun n => ("abc", n)) = [⟨"abc", 3, 3, 1⟩] ∧
    runMemory ([1, 2, 3].map fun n => ("abc", n)) = [⟨"abc", 3, 3, 1⟩] := by
  exact C3_repeat_record "abc" 1 [2, 3] (by decide) (by decide)

/-- Witness for C4 at a concrete input: with limit 2 on a one-record store the
two backends agree. -/
theorem C4_ranking_order_witness :
    getHotSearchesDurable 2 [⟨"a", 1, 0, 0⟩] = getHotSearchesMemory 2 [⟨"a", 1, 0, 0⟩] :=
  (C4_ranking_order [⟨"a", 1, 0, 0⟩] 2).2.2 (by decide)

/-- Witness for the amended C5 at a concrete input: recording " a " stores the
record under the raw key " a ". -/
theorem C5_raw_key_witness :
    runDurable [(" a ", 7)] = [⟨" a ", 1, 7, 7⟩] ∧
    runMemory [(" a ", 7)] = [⟨" a ", 1, 7, 7⟩] :=
  C5_raw_key " a " 7 (by decide) (by decide)

/-- Witness for the amended C6 at a concrete input: limit 1 on a one-record
store returns at most one record. -/
theorem C6_limit_clamp_witness :
    (getHotSearchesDurable 1 [⟨"a", 1, 0, 0⟩]).length ≤ min (Int.toNat 1) MAX_ENTRIES :=
  ((C6_limit_clamp [⟨"a", 1, 0, 0⟩] 1).1 (by decide)).1

/-- Witness for C7 at concrete inputs: the wrong secret "wrong" against the
default password "admin123" fails and leaves the one-record store intact. -/
theorem C7_wrong_secret_witness :
    deleteHotSearch "x" "wrong" "admin123" [⟨"x", 1, 0, 0⟩] =
        ({ success := false, message := "密码错误" }, [⟨"x", 1, 0, 0⟩]) ∧
    clearHotSearches "wrong" "admin123" [⟨"x", 1, 0, 0⟩] =
        ({ success := false, message := "密码错误" }, [⟨"x", 1, 0, 0⟩]) :=
  C7_wrong_secret "x" "wrong" "admin123" [⟨"x", 1, 0, 0⟩] (by decide)

/-- Witness for C10 at a concrete input: "aFUCKb" contains the keyword "fuck"
case-insensitively and is discarded by both backends. -/
theorem C10_moderation_witness :
    recordSearchDurable "aFUCKb" 0 [] = [] ∧ recordSearchMemory "aFUCKb" 0 [] = [] :=
  (C10_moderation "aFUCKb" 0 []).2 (by decide)
